import Mathlib

/-!
Shallow embedding of the `datamapper` unit-of-work registry.

The registry (`UnitOfWork`) tracks domain entities in three mappings keyed
by the entity's identity string: `newObjects`, `dirtyObjects` and
`deletedObjects`.  The registration operations `RegisterNew`,
`RegisterDirty` and `RegisterDeleted` are translated from the Go source
(the current `Entity`-based variant; the older `Model`-based variant with a
`removedObjects` mapping is embedded separately where a claim refers to it).

Go maps are modelled extensionally as `String → Option Entity`; Go's
`delete` and insertion become `mapErase` and `mapInsert`.  A Go method that
mutates its receiver and returns an `error` becomes a function returning
the final receiver state paired with `Option RegError`.  The `panic` in the
validation helper is modelled with the `PanicOr` result type.
-/

namespace Datamapper

/-- A domain entity.  The registry only ever reads the identity string
(`id`); `ref` stands for everything else about the referenced object (which
concrete object it is), so two distinct references can carry the same
identity. -/
structure Entity where
  id : String
  ref : Nat
deriving DecidableEq

/-- `GetID` of the `Entity` interface: returns the entity's ID. -/
def Entity.GetID (e : Entity) : String := e.id

/-- A Go `map[string]Entity`, modelled extensionally. -/
abbrev EntityMap := String → Option Entity

/-- The empty map (`make(map[string]Entity)`). -/
def emptyMap : EntityMap := fun _ => none

/-- Go map insertion `m[k] = v`. -/
def mapInsert (m : EntityMap) (k : String) (v : Entity) : EntityMap :=
  fun q => if q = k then some v else m q

/-- Go map deletion `delete(m, k)`. -/
def mapErase (m : EntityMap) (k : String) : EntityMap :=
  fun q => if q = k then none else m q

/-- The unit-of-work registry: three mappings from identity to entity. -/
structure UnitOfWork where
  newObjects : EntityMap
  dirtyObjects : EntityMap
  deletedObjects : EntityMap

/-- `NewUnitOfWork` creates a registry with three empty mappings. -/
def NewUnitOfWork : UnitOfWork :=
  { newObjects := emptyMap
    dirtyObjects := emptyMap
    deletedObjects := emptyMap }

/-- The recoverable errors returned by the registration operations.
`missingIdentity` carries the offending entity because the Go message
renders the whole entity (`"entity has no ID: %+v"`); `conflictingState`
carries the identity and the category name interpolated into
`"entity with ID ... is already registered as ..."`. -/
inductive RegError where
  | missingIdentity (entity : Entity)
  | conflictingState (id : String) (registeredAs : String)
deriving DecidableEq

/-- Result of Go code that can either `panic` or return a value. -/
inductive PanicOr (α : Type) where
  | panicked (msg : String)
  | ret (val : α)

/-- `assertEntityHasID`: returns an error if an entity has no ID. -/
def assertEntityHasID (_unit : UnitOfWork) (entity : Entity) : Option RegError :=
  if entity.GetID = "" then
    some (RegError.missingIdentity entity)
  else
    none

/-- `assertEntityNotRegisteredAs`: selects the registry named by
`registeredAs` (panicking on an unknown name, like the Go `switch`
default) and returns a `conflictingState` error if the entity's identity
is already present in it. -/
def assertEntityNotRegisteredAs (unit : UnitOfWork) (entity : Entity)
    (registeredAs : String) : PanicOr (Option RegError) :=
  let registry? : Option EntityMap :=
    if registeredAs = "dirty" then some unit.dirtyObjects
    else if registeredAs = "deleted" then some unit.deletedObjects
    else if registeredAs = "new" then some unit.newObjects
    else none
  match registry? with
  | none =>
      .panicked ("unknown registry for state of persistence: " ++ registeredAs)
  | some registry =>
      if (registry entity.GetID).isSome then
        .ret (some (RegError.conflictingState entity.GetID registeredAs))
      else
        .ret none

/-- `RegisterNew`: registers a domain entity as being new.  Returns the
final registry state together with the returned error, or a panic if one
of the helper calls panicked (it never does, see the proofs below). -/
def RegisterNew (unit : UnitOfWork) (entity : Entity) :
    PanicOr (UnitOfWork × Option RegError) :=
  match assertEntityHasID unit entity with
  | some err => .ret (unit, some err)
  | none =>
    match assertEntityNotRegisteredAs unit entity "dirty" with
    | .panicked msg => .panicked msg
    | .ret (some err) => .ret (unit, some err)
    | .ret none =>
      match assertEntityNotRegisteredAs unit entity "deleted" with
      | .panicked msg => .panicked msg
      | .ret (some err) => .ret (unit, some err)
      | .ret none =>
        match assertEntityNotRegisteredAs unit entity "new" with
        | .panicked msg => .panicked msg
        | .ret (some err) => .ret (unit, some err)
        | .ret none =>
          .ret ({ unit with
                    newObjects := mapInsert unit.newObjects entity.GetID entity },
                none)

/-- `RegisterDirty`: registers a domain entity as being dirty.  After the
ID and not-deleted checks, the entity is inserted into the dirty mapping
unless its identity is already present in the new mapping (Go checks
`unit.newObjects`). -/
def RegisterDirty (unit : UnitOfWork) (entity : Entity) :
    PanicOr (UnitOfWork × Option RegError) :=
  match assertEntityHasID unit entity with
  | some err => .ret (unit, some err)
  | none =>
    match assertEntityNotRegisteredAs unit entity "deleted" with
    | .panicked msg => .panicked msg
    | .ret (some err) => .ret (unit, some err)
    | .ret none =>
      if (unit.newObjects entity.GetID).isSome then
        .ret (unit, none)
      else
        .ret ({ unit with
                  dirtyObjects := mapInsert unit.dirtyObjects entity.GetID entity },
              none)

/-- `RegisterDeleted`: registers a domain entity as being deleted.  A
still-new entity is simply dropped from the new mapping; otherwise the
entity is removed from the dirty mapping and inserted into the deleted
mapping unless already there. -/
def RegisterDeleted (unit : UnitOfWork) (entity : Entity) :
    PanicOr (UnitOfWork × Option RegError) :=
  match assertEntityHasID unit entity with
  | some err => .ret (unit, some err)
  | none =>
    if (unit.newObjects entity.GetID).isSome then
      .ret ({ unit with newObjects := mapErase unit.newObjects entity.GetID },
            none)
    else
      let unit1 :=
        { unit with dirtyObjects := mapErase unit.dirtyObjects entity.GetID }
      if (unit1.deletedObjects entity.GetID).isSome then
        .ret (unit1, none)
      else
        .ret ({ unit1 with
                  deletedObjects := mapInsert unit1.deletedObjects entity.GetID entity },
              none)

/-! ### Characterization lemmas

These rewrite each operation into a single chain of `if`s over the three
membership tests, which makes case analysis in the theorems below direct.
-/

theorem assertE_dirty_eq (u : UnitOfWork) (e : Entity) :
    assertEntityNotRegisteredAs u e "dirty" =
      (if (u.dirtyObjects e.GetID).isSome then
        PanicOr.ret (some (RegError.conflictingState e.GetID "dirty"))
      else PanicOr.ret none) := by
  simp [assertEntityNotRegisteredAs]

theorem assertE_deleted_eq (u : UnitOfWork) (e : Entity) :
    assertEntityNotRegisteredAs u e "deleted" =
      (if (u.deletedObjects e.GetID).isSome then
        PanicOr.ret (some (RegError.conflictingState e.GetID "deleted"))
      else PanicOr.ret none) := by
  simp [assertEntityNotRegisteredAs]

theorem assertE_new_eq (u : UnitOfWork) (e : Entity) :
    assertEntityNotRegisteredAs u e "new" =
      (if (u.newObjects e.GetID).isSome then
        PanicOr.ret (some (RegError.conflictingState e.GetID "new"))
      else PanicOr.ret none) := by
  simp [assertEntityNotRegisteredAs]

theorem registerNew_eq (u : UnitOfWork) (e : Entity) :
    RegisterNew u e =
      if e.GetID = "" then .ret (u, some (.missingIdentity e))
      else if (u.dirtyObjects e.GetID).isSome then
        .ret (u, some (.conflictingState e.GetID "dirty"))
      else if (u.deletedObjects e.GetID).isSome then
        .ret (u, some (.conflictingState e.GetID "deleted"))
      else if (u.newObjects e.GetID).isSome then
        .ret (u, some (.conflictingState e.GetID "new"))
      else
        .ret ({ u with newObjects := mapInsert u.newObjects e.GetID e }, none) := by
  rw [RegisterNew, assertE_dirty_eq, assertE_deleted_eq, assertE_new_eq]
  by_cases h0 : e.GetID = "" <;>
    by_cases h1 : (u.dirtyObjects e.GetID).isSome <;>
      by_cases h2 : (u.deletedObjects e.GetID).isSome <;>
        by_cases h3 : (u.newObjects e.GetID).isSome <;>
          simp [assertEntityHasID, h0, h1, h2, h3]

theorem registerDirty_eq (u : UnitOfWork) (e : Entity) :
    RegisterDirty u e =
      if e.GetID = "" then .ret (u, some (.missingIdentity e))
      else if (u.deletedObjects e.GetID).isSome then
        .ret (u, some (.conflictingState e.GetID "deleted"))
      else if (u.newObjects e.GetID).isSome then
        .ret (u, none)
      else
        .ret ({ u with dirtyObjects := mapInsert u.dirtyObjects e.GetID e }, none) := by
  rw [RegisterDirty, assertE_deleted_eq]
  by_cases h0 : e.GetID = "" <;>
    by_cases h1 : (u.deletedObjects e.GetID).isSome <;>
      by_cases h2 : (u.newObjects e.GetID).isSome <;>
        simp [assertEntityHasID, h0, h1, h2]

theorem registerDeleted_eq (u : UnitOfWork) (e : Entity) :
    RegisterDeleted u e =
      if e.GetID = "" then .ret (u, some (.missingIdentity e))
      else if (u.newObjects e.GetID).isSome then
        .ret ({ u with newObjects := mapErase u.newObjects e.GetID }, none)
      else if (u.deletedObjects e.GetID).isSome then
        .ret ({ u with dirtyObjects := mapErase u.dirtyObjects e.GetID }, none)
      else
        .ret ({ u with
                  dirtyObjects := mapErase u.dirtyObjects e.GetID
                  deletedObjects := mapInsert u.deletedObjects e.GetID e }, none) := by
  rw [RegisterDeleted]
  by_cases h0 : e.GetID = "" <;>
    by_cases h1 : (u.newObjects e.GetID).isSome <;>
      by_cases h2 : (u.deletedObjects e.GetID).isSome <;>
        simp [assertEntityHasID, h0, h1, h2]

/-! ### Membership counting and reachability -/

theorem mapInsert_self (m : EntityMap) (k : String) (v : Entity) :
    mapInsert m k v k = some v := by
  simp [mapInsert]

theorem mapInsert_other (m : EntityMap) (k q : String) (v : Entity)
    (h : q ≠ k) : mapInsert m k v q = m q := by
  simp [mapInsert, h]

theorem mapErase_self (m : EntityMap) (k : String) :
    mapErase m k k = none := by
  simp [mapErase]

theorem mapErase_other (m : EntityMap) (k q : String) (h : q ≠ k) :
    mapErase m k q = m q := by
  simp [mapErase, h]

/-- The number of the three mappings of `u` in which identity `k` is
present. -/
def presentCount (u : UnitOfWork) (k : String) : Nat :=
  (if (u.newObjects k).isSome then 1 else 0) +
    (if (u.dirtyObjects k).isSome then 1 else 0) +
      (if (u.deletedObjects k).isSome then 1 else 0)

/-- The central registry invariant: every identity is present in at most
one of the three mappings. -/
def InvAtMostOne (u : UnitOfWork) : Prop :=
  ∀ k : String, presentCount u k ≤ 1

/-- Registry states reachable from the empty registry by any sequence of
registration calls that return (successfully or with an error). -/
inductive Reachable : UnitOfWork → Prop where
  | init : Reachable NewUnitOfWork
  | stepNew {u u' : UnitOfWork} {e : Entity} {r : Option RegError} :
      Reachable u → RegisterNew u e = .ret (u', r) → Reachable u'
  | stepDirty {u u' : UnitOfWork} {e : Entity} {r : Option RegError} :
      Reachable u → RegisterDirty u e = .ret (u', r) → Reachable u'
  | stepDeleted {u u' : UnitOfWork} {e : Entity} {r : Option RegError} :
      Reachable u → RegisterDeleted u e = .ret (u', r) → Reachable u'

theorem presentCount_congr {u u' : UnitOfWork} (k : String)
    (hn : u'.newObjects k = u.newObjects k)
    (hd : u'.dirtyObjects k = u.dirtyObjects k)
    (hx : u'.deletedObjects k = u.deletedObjects k) :
    presentCount u' k = presentCount u k := by
  simp [presentCount, hn, hd, hx]

theorem invPreservedNew {u u' : UnitOfWork} {e : Entity} {r : Option RegError}
    (hinv : InvAtMostOne u) (h : RegisterNew u e = .ret (u', r)) :
    InvAtMostOne u' := by
  rw [registerNew_eq] at h
  split at h
  · cases h; exact hinv
  split at h
  · cases h; exact hinv
  split at h
  · cases h; exact hinv
  split at h
  · cases h; exact hinv
  cases h
  intro k
  have hcnt := hinv k
  by_cases hk : k = e.GetID
  · subst hk
    simp_all [presentCount, mapInsert]
    try omega
  · simp_all [presentCount, mapInsert, hk]
    try omega

theorem invPreservedDirty {u u' : UnitOfWork} {e : Entity} {r : Option RegError}
    (hinv : InvAtMostOne u) (h : RegisterDirty u e = .ret (u', r)) :
    InvAtMostOne u' := by
  rw [registerDirty_eq] at h
  split at h
  · cases h; exact hinv
  split at h
  · cases h; exact hinv
  split at h
  · cases h; exact hinv
  cases h
  intro k
  have hcnt := hinv k
  by_cases hk : k = e.GetID
  · subst hk
    simp_all [presentCount, mapInsert]
    try omega
  · simp_all [presentCount, mapInsert, hk]
    try omega

theorem invPreservedDeleted {u u' : UnitOfWork} {e : Entity} {r : Option RegError}
    (hinv : InvAtMostOne u) (h : RegisterDeleted u e = .ret (u', r)) :
    InvAtMostOne u' := by
  rw [registerDeleted_eq] at h
  split at h
  · cases h; exact hinv
  split at h
  · cases h
    intro k
    have hcnt := hinv k
    by_cases hk : k = e.GetID
    · subst hk
      simp_all [presentCount, mapErase]
      try omega
    · simp_all [presentCount, mapErase, hk]
      try omega
  split at h
  · cases h
    intro k
    have hcnt := hinv k
    by_cases hk : k = e.GetID
    · subst hk
      simp_all [presentCount, mapErase]
      try omega
    · simp_all [presentCount, mapErase, hk]
      try omega
  cases h
  intro k
  have hcnt := hinv k
  by_cases hk : k = e.GetID
  · subst hk
    simp_all [presentCount, mapErase, mapInsert]
    try omega
  · simp_all [presentCount, mapErase, mapInsert, hk]
    try omega

/-- `true` exactly when a registration call returned a (non-nil) error. -/
def isErr : PanicOr (UnitOfWork × Option RegError) → Bool
  | .ret (_, some _) => true
  | _ => false

/-! ### Concrete fixtures used by witnesses and counterexamples -/

/-- Entity with identity `"5"`, as in the repository's tests. -/
def ent5 : Entity := { id := "5", ref := 0 }

/-- A second, distinct entity carrying the same identity `"5"`. -/
def ent5b : Entity := { id := "5", ref := 1 }

/-- Entity with an empty identity. -/
def entNoId : Entity := { id := "", ref := 0 }

/-- A second, distinct entity with an empty identity. -/
def entNoIdB : Entity := { id := "", ref := 1 }

/-- Registry holding `ent5` in the new mapping only. -/
def uNew5 : UnitOfWork :=
  { NewUnitOfWork with
      newObjects := mapInsert NewUnitOfWork.newObjects "5" ent5 }

/-- Registry holding `ent5` in the deleted mapping only. -/
def uDel5 : UnitOfWork :=
  { NewUnitOfWork with
      deletedObjects := mapInsert NewUnitOfWork.deletedObjects "5" ent5 }

/-- Registry holding `ent5` in the dirty mapping only. -/
def uDirty5 : UnitOfWork :=
  { NewUnitOfWork with
      dirtyObjects := mapInsert NewUnitOfWork.dirtyObjects "5" ent5 }

/-- `uNew5` after `RegisterDeleted` dropped `"5"` from the new mapping. -/
def uAfterDel : UnitOfWork :=
  { uNew5 with newObjects := mapErase uNew5.newObjects "5" }

theorem invEmpty : InvAtMostOne NewUnitOfWork := by
  intro k
  simp [presentCount, NewUnitOfWork, emptyMap]

/-! ### The claims -/

/-- C1: every registry reachable from the empty registry by any sequence of
RegisterNew / RegisterDirty / RegisterDeleted calls (successful or failing)
keeps every entity identity in at most one of the three mappings, and each
of the three operations preserves this invariant. -/
theorem reachable_at_most_one :
    (∀ u, Reachable u → InvAtMostOne u) ∧
    (∀ u u' e r, InvAtMostOne u →
      RegisterNew u e = .ret (u', r) → InvAtMostOne u') ∧
    (∀ u u' e r, InvAtMostOne u →
      RegisterDirty u e = .ret (u', r) → InvAtMostOne u') ∧
    (∀ u u' e r, InvAtMostOne u →
      RegisterDeleted u e = .ret (u', r) → InvAtMostOne u') := by
  refine ⟨?_, ?_, ?_, ?_⟩
  · intro u hr
    induction hr with
    | init => intro k; simp [presentCount, NewUnitOfWork, emptyMap]
    | stepNew hu hs ih => exact invPreservedNew ih hs
    | stepDirty hu hs ih => exact invPreservedDirty ih hs
    | stepDeleted hu hs ih => exact invPreservedDeleted ih hs
  · exact fun u u' e r hi hs => invPreservedNew hi hs
  · exact fun u u' e r hi hs => invPreservedDirty hi hs
  · exact fun u u' e r hi hs => invPreservedDeleted hi hs

/-- Witness for C1 at the empty registry and identity `"5"`. -/
theorem reachable_at_most_one_witness :
    presentCount NewUnitOfWork "5" ≤ 1 :=
  reachable_at_most_one.1 NewUnitOfWork Reachable.init "5"

/-- C2: `RegisterNew` fails exactly when the identity is empty
(`missingIdentity`) or already present in one of the three mappings
(`conflictingState` naming the conflicting category, checked in the order
dirty, deleted, new); on success the new mapping holds the same entity and
the dirty and deleted mappings do not contain the identity. -/
theorem registerNew_spec (u : UnitOfWork) (e : Entity) :
    (isErr (RegisterNew u e) = true ↔
      (e.GetID = "" ∨ (u.dirtyObjects e.GetID).isSome = true ∨
        (u.deletedObjects e.GetID).isSome = true ∨
        (u.newObjects e.GetID).isSome = true)) ∧
    (e.GetID = "" → RegisterNew u e = .ret (u, some (.missingIdentity e))) ∧
    (e.GetID ≠ "" → (u.dirtyObjects e.GetID).isSome = true →
      RegisterNew u e = .ret (u, some (.conflictingState e.GetID "dirty"))) ∧
    (e.GetID ≠ "" → (u.dirtyObjects e.GetID).isSome = false →
      (u.deletedObjects e.GetID).isSome = true →
      RegisterNew u e = .ret (u, some (.conflictingState e.GetID "deleted"))) ∧
    (e.GetID ≠ "" → (u.dirtyObjects e.GetID).isSome = false →
      (u.deletedObjects e.GetID).isSome = false →
      (u.newObjects e.GetID).isSome = true →
      RegisterNew u e = .ret (u, some (.conflictingState e.GetID "new"))) ∧
    (∀ u', RegisterNew u e = .ret (u', none) →
      u'.newObjects e.GetID = some e ∧
        (u'.dirtyObjects e.GetID).isSome = false ∧
          (u'.deletedObjects e.GetID).isSome = false) := by
  by_cases h0 : e.GetID = "" <;>
    by_cases h1 : (u.dirtyObjects e.GetID).isSome <;>
      by_cases h2 : (u.deletedObjects e.GetID).isSome <;>
        by_cases h3 : (u.newObjects e.GetID).isSome <;>
          (simp [registerNew_eq, isErr, mapInsert, h0, h1, h2, h3];
            try simp_all [Option.not_isSome_iff_eq_none])

/-- Witness for C2: a successful `RegisterNew` of `ent5` on the empty
registry places it in the new mapping only. -/
theorem registerNew_spec_witness :
    uNew5.newObjects "5" = some ent5 ∧
      (uNew5.dirtyObjects "5").isSome = false ∧
        (uNew5.deletedObjects "5").isSome = false :=
  (registerNew_spec NewUnitOfWork ent5).2.2.2.2.2 uNew5 rfl

/-- C3: for a non-empty identity `RegisterDeleted` always succeeds and
follows the ordered policy: a still-new entity is only dropped from the new
mapping (not added to the deleted mapping); otherwise the identity is
removed from the dirty mapping and the entity inserted into the deleted
mapping, the insertion being a no-op that keeps the stored reference when
the identity is already there. -/
theorem registerDeleted_spec (u : UnitOfWork) (e : Entity) (h : e.GetID ≠ "") :
    isErr (RegisterDeleted u e) = false ∧
    ((u.newObjects e.GetID).isSome = true →
      RegisterDeleted u e =
        .ret ({ u with newObjects := mapErase u.newObjects e.GetID }, none)) ∧
    ((u.newObjects e.GetID).isSome = false →
      (u.deletedObjects e.GetID).isSome = true →
      RegisterDeleted u e =
        .ret ({ u with dirtyObjects := mapErase u.dirtyObjects e.GetID }, none)) ∧
    ((u.newObjects e.GetID).isSome = false →
      (u.deletedObjects e.GetID).isSome = false →
      RegisterDeleted u e =
        .ret ({ u with
                  dirtyObjects := mapErase u.dirtyObjects e.GetID
                  deletedObjects := mapInsert u.deletedObjects e.GetID e },
              none)) := by
  by_cases h1 : (u.newObjects e.GetID).isSome <;>
    by_cases h2 : (u.deletedObjects e.GetID).isSome <;>
      simp [registerDeleted_eq, isErr, h, h1, h2]

/-- Witness for C3: deleting the still-new `ent5` only empties the new
mapping. -/
theorem registerDeleted_spec_witness :
    RegisterDeleted uNew5 ent5 = .ret (uAfterDel, none) :=
  (registerDeleted_spec uNew5 ent5 (by decide)).2.1 rfl

/-- C4: `RegisterDirty` fails exactly when the identity is empty
(`missingIdentity`) or present in the deleted mapping (`conflictingState`);
on success it is a silent no-op when the identity is in the new mapping and
otherwise inserts (overwriting without error) into the dirty mapping. -/
theorem registerDirty_spec (u : UnitOfWork) (e : Entity) :
    (isErr (RegisterDirty u e) = true ↔
      (e.GetID = "" ∨ (u.deletedObjects e.GetID).isSome = true)) ∧
    (e.GetID = "" → RegisterDirty u e = .ret (u, some (.missingIdentity e))) ∧
    (e.GetID ≠ "" → (u.deletedObjects e.GetID).isSome = true →
      RegisterDirty u e = .ret (u, some (.conflictingState e.GetID "deleted"))) ∧
    (e.GetID ≠ "" → (u.deletedObjects e.GetID).isSome = false →
      (u.newObjects e.GetID).isSome = true →
      RegisterDirty u e = .ret (u, none)) ∧
    (e.GetID ≠ "" → (u.deletedObjects e.GetID).isSome = false →
      (u.newObjects e.GetID).isSome = false →
      RegisterDirty u e =
        .ret ({ u with dirtyObjects := mapInsert u.dirtyObjects e.GetID e },
              none)) := by
  by_cases h0 : e.GetID = "" <;>
    by_cases h1 : (u.deletedObjects e.GetID).isSome <;>
      by_cases h2 : (u.newObjects e.GetID).isSome <;>
        simp [registerDirty_eq, isErr, h0, h1, h2]

/-- Witness for C4: registering `ent5` as dirty on the empty registry
inserts it into the dirty mapping. -/
theorem registerDirty_spec_witness :
    RegisterDirty NewUnitOfWork ent5 = .ret (uDirty5, none) :=
  (registerDirty_spec NewUnitOfWork ent5).2.2.2.2 (by decide) rfl rfl

/-- C5: every registration operation is atomic: an erroring call leaves
all three mappings exactly as before; in particular an empty identity makes
each operation fail with `missingIdentity` and mutate nothing. -/
theorem register_atomic (u : UnitOfWork) (e : Entity) :
    (∀ u' err, RegisterNew u e = .ret (u', some err) → u' = u) ∧
    (∀ u' err, RegisterDirty u e = .ret (u', some err) → u' = u) ∧
    (∀ u' err, RegisterDeleted u e = .ret (u', some err) → u' = u) ∧
    (e.GetID = "" →
      RegisterNew u e = .ret (u, some (.missingIdentity e)) ∧
        RegisterDirty u e = .ret (u, some (.missingIdentity e)) ∧
          RegisterDeleted u e = .ret (u, some (.missingIdentity e))) := by
  refine ⟨?_, ?_, ?_, ?_⟩
  · intro u' err h
    rw [registerNew_eq] at h
    split at h; · cases h; rfl
    split at h; · cases h; rfl
    split at h; · cases h; rfl
    split at h; · cases h; rfl
    cases h
  · intro u' err h
    rw [registerDirty_eq] at h
    split at h; · cases h; rfl
    split at h; · cases h; rfl
    split at h; · cases h
    cases h
  · intro u' err h
    rw [registerDeleted_eq] at h
    split at h; · cases h; rfl
    split at h; · cases h
    split at h; · cases h
    cases h
  · intro h0
    refine ⟨?_, ?_, ?_⟩ <;> simp [registerNew_eq, registerDirty_eq,
      registerDeleted_eq, h0]

/-- Witness for C5: all three operations reject the identity-less
`entNoId` on the empty registry with `missingIdentity`, returning the
registry untouched. -/
theorem register_atomic_witness :
    RegisterNew NewUnitOfWork entNoId =
        .ret (NewUnitOfWork, some (.missingIdentity entNoId)) ∧
      RegisterDirty NewUnitOfWork entNoId =
          .ret (NewUnitOfWork, some (.missingIdentity entNoId)) ∧
        RegisterDeleted NewUnitOfWork entNoId =
            .ret (NewUnitOfWork, some (.missingIdentity entNoId)) :=
  (register_atomic NewUnitOfWork entNoId).2.2.2 rfl

/-- C6 (amended): after a successful registration the entity's identity
appears in at most one mapping: in exactly one after `RegisterNew`,
`RegisterDirty`, or a `RegisterDeleted` of an identity not in the new
mapping, but in none after `RegisterDeleted` of a still-new identity
(the cancelled creation is fully discarded). -/
theorem successful_registration_count (u u' : UnitOfWork) (e : Entity)
    (hinv : InvAtMostOne u) :
    (RegisterNew u e = .ret (u', none) → presentCount u' e.GetID = 1) ∧
    (RegisterDirty u e = .ret (u', none) → presentCount u' e.GetID = 1) ∧
    (RegisterDeleted u e = .ret (u', none) →
      ((u.newObjects e.GetID).isSome = true → presentCount u' e.GetID = 0) ∧
        ((u.newObjects e.GetID).isSome = false → presentCount u' e.GetID = 1)) := by
  have hcnt := hinv e.GetID
  refine ⟨?_, ?_, ?_⟩
  · intro h
    rw [registerNew_eq] at h
    split at h
    · simp at h
    split at h
    · simp at h
    split at h
    · simp at h
    split at h
    · simp at h
    simp only [PanicOr.ret.injEq, Prod.mk.injEq] at h
    obtain ⟨h', -⟩ := h
    subst h'
    simp_all [presentCount, mapInsert]
  · intro h
    rw [registerDirty_eq] at h
    split at h
    · simp at h
    split at h
    · simp at h
    split at h
    · simp only [PanicOr.ret.injEq, Prod.mk.injEq] at h
      obtain ⟨h', -⟩ := h
      subst h'
      by_cases hb : (u.dirtyObjects e.GetID).isSome <;>
        simp_all [presentCount]
    · simp only [PanicOr.ret.injEq, Prod.mk.injEq] at h
      obtain ⟨h', -⟩ := h
      subst h'
      simp_all [presentCount, mapInsert]
  · intro h
    rw [registerDeleted_eq] at h
    split at h
    · simp at h
    split at h
    · simp only [PanicOr.ret.injEq, Prod.mk.injEq] at h
      obtain ⟨h', -⟩ := h
      subst h'
      constructor <;> intro hn <;>
        by_cases hb : (u.dirtyObjects e.GetID).isSome <;>
          by_cases hx : (u.deletedObjects e.GetID).isSome <;>
            simp_all [presentCount, mapErase]
    split at h
    · simp only [PanicOr.ret.injEq, Prod.mk.injEq] at h
      obtain ⟨h', -⟩ := h
      subst h'
      constructor <;> intro hn <;> simp_all [presentCount, mapErase]
    · simp only [PanicOr.ret.injEq, Prod.mk.injEq] at h
      obtain ⟨h', -⟩ := h
      subst h'
      constructor <;> intro hn <;> simp_all [presentCount, mapErase, mapInsert]

/-- Witness for the amended C6: a fresh `RegisterNew` of `ent5` leaves
`"5"` in exactly one mapping. -/
theorem successful_registration_count_witness :
    presentCount uNew5 "5" = 1 :=
  (successful_registration_count NewUnitOfWork uNew5 ent5 invEmpty).1 rfl

/-- C6 counterexample: `RegisterDeleted` of the still-new `ent5` is a
successful registration after which identity `"5"` is present in zero
mappings, not exactly one. -/
theorem successful_registration_count_cex :
    RegisterDeleted uNew5 ent5 = .ret (uAfterDel, none) ∧
      presentCount uAfterDel "5" = 0 :=
  ⟨rfl, rfl⟩

/-- C7 (amended): the transitions absent from the spec's per-identity
state machine are rejected with `conflictingState` and leave the registry
unchanged in the cases RegisterNew-from-dirty, RegisterNew-from-deleted
and RegisterDirty-from-deleted; RegisterDeleted-from-deleted, however,
returns successfully as a silent no-op, also leaving the registry
unchanged. -/
theorem missing_transitions (u : UnitOfWork) (e : Entity) (h0 : e.GetID ≠ "") :
    ((u.dirtyObjects e.GetID).isSome = true →
      RegisterNew u e = .ret (u, some (.conflictingState e.GetID "dirty"))) ∧
    ((u.dirtyObjects e.GetID).isSome = false →
      (u.deletedObjects e.GetID).isSome = true →
      RegisterNew u e = .ret (u, some (.conflictingState e.GetID "deleted"))) ∧
    ((u.deletedObjects e.GetID).isSome = true →
      RegisterDirty u e = .ret (u, some (.conflictingState e.GetID "deleted"))) ∧
    ((u.newObjects e.GetID).isSome = false →
      u.dirtyObjects e.GetID = none →
      (u.deletedObjects e.GetID).isSome = true →
      RegisterDeleted u e = .ret (u, none)) := by
  refine ⟨?_, ?_, ?_, ?_⟩
  · intro h1
    simp [registerNew_eq, h0, h1]
  · intro h1 h2
    simp [registerNew_eq, h0, h1, h2]
  · intro h1
    simp [registerDirty_eq, h0, h1]
  · intro hn hd hx
    have hmap : mapErase u.dirtyObjects e.GetID = u.dirtyObjects := by
      funext q
      by_cases hq : q = e.GetID
      · subst hq; simp [mapErase, hd]
      · simp [mapErase, hq]
    simp [registerDeleted_eq, h0, hn, hx, hmap]

/-- Witness for the amended C7: with `"5"` registered as deleted,
`RegisterNew` is rejected naming the deleted category. -/
theorem missing_transitions_witness :
    RegisterNew uDel5 ent5 =
      .ret (uDel5, some (.conflictingState "5" "deleted")) :=
  (missing_transitions uDel5 ent5 (by decide)).2.1 rfl rfl

/-- C7 counterexample: with `"5"` already in the deleted mapping,
`RegisterDeleted` returns no error at all, instead of the
`conflictingState` rejection the claim requires. -/
theorem missing_transitions_cex :
    (uDel5.deletedObjects "5").isSome = true ∧
      isErr (RegisterDeleted uDel5 ent5) = false :=
  ⟨rfl, rfl⟩

/-! ### The older Model-based variant's validation helper

The repository also contains the earlier revision of the same file, where
the deleted category is called "removed" (`removedObjects`,
`assertModelNotRegisteredAs`).  Only the validation helper differs in the
category names it recognizes, so only it is embedded. -/

/-- The registry of the older variant: `removedObjects` in place of
`deletedObjects`. -/
structure UnitOfWorkM where
  newObjects : EntityMap
  dirtyObjects : EntityMap
  removedObjects : EntityMap

/-- `assertModelNotRegisteredAs` of the older variant: recognizes
"dirty", "removed" and "new", panicking on anything else. -/
def assertModelNotRegisteredAs (unit : UnitOfWorkM) (model : Entity)
    (registeredAs : String) : PanicOr (Option RegError) :=
  let registry? : Option EntityMap :=
    if registeredAs = "dirty" then some unit.dirtyObjects
    else if registeredAs = "removed" then some unit.removedObjects
    else if registeredAs = "new" then some unit.newObjects
    else none
  match registry? with
  | none =>
      .panicked ("unknown registry for state of persistence: " ++ registeredAs)
  | some registry =>
      if (registry model.GetID).isSome then
        .ret (some (RegError.conflictingState model.GetID registeredAs))
      else
        .ret none

/-- The empty registry of the older Model-based variant. -/
def uModelEmpty : UnitOfWorkM :=
  { newObjects := emptyMap
    dirtyObjects := emptyMap
    removedObjects := emptyMap }

/-- C8: each validation helper, applied to one of its three recognized
category names, never reaches the panic branch and returns a
`conflictingState` error exactly when the entity's identity is present in
that category's mapping; applied to any other category name it panics. -/
theorem assertNotRegistered_spec (u : UnitOfWork) (um : UnitOfWorkM)
    (e : Entity) (s : String) :
    (assertEntityNotRegisteredAs u e "dirty" =
      (if (u.dirtyObjects e.GetID).isSome then
        .ret (some (.conflictingState e.GetID "dirty"))
      else .ret none)) ∧
    (assertEntityNotRegisteredAs u e "deleted" =
      (if (u.deletedObjects e.GetID).isSome then
        .ret (some (.conflictingState e.GetID "deleted"))
      else .ret none)) ∧
    (assertEntityNotRegisteredAs u e "new" =
      (if (u.newObjects e.GetID).isSome then
        .ret (some (.conflictingState e.GetID "new"))
      else .ret none)) ∧
    (s ≠ "dirty" → s ≠ "deleted" → s ≠ "new" →
      assertEntityNotRegisteredAs u e s =
        .panicked ("unknown registry for state of persistence: " ++ s)) ∧
    (assertModelNotRegisteredAs um e "dirty" =
      (if (um.dirtyObjects e.GetID).isSome then
        .ret (some (.conflictingState e.GetID "dirty"))
      else .ret none)) ∧
    (assertModelNotRegisteredAs um e "removed" =
      (if (um.removedObjects e.GetID).isSome then
        .ret (some (.conflictingState e.GetID "removed"))
      else .ret none)) ∧
    (assertModelNotRegisteredAs um e "new" =
      (if (um.newObjects e.GetID).isSome then
        .ret (some (.conflictingState e.GetID "new"))
      else .ret none)) ∧
    (s ≠ "dirty" → s ≠ "removed" → s ≠ "new" →
      assertModelNotRegisteredAs um e s =
        .panicked ("unknown registry for state of persistence: " ++ s)) := by
  refine ⟨assertE_dirty_eq u e, assertE_deleted_eq u e, assertE_new_eq u e,
    ?_, ?_, ?_, ?_, ?_⟩
  · intro h1 h2 h3
    simp [assertEntityNotRegisteredAs, h1, h2, h3]
  · simp [assertModelNotRegisteredAs]
  · simp [assertModelNotRegisteredAs]
  · simp [assertModelNotRegisteredAs]
  · intro h1 h2 h3
    simp [assertModelNotRegisteredAs, h1, h2, h3]

/-- Witness for C8: the unknown category `"some-state"` used by the
repository's panic test makes both helpers panic, and a recognized name on
a conflicting registry returns the error. -/
theorem assertNotRegistered_spec_witness :
    assertEntityNotRegisteredAs uDel5 ent5 "some-state" =
        .panicked ("unknown registry for state of persistence: " ++
          "some-state") ∧
      assertModelNotRegisteredAs uModelEmpty ent5 "some-state" =
          .panicked ("unknown registry for state of persistence: " ++
            "some-state") :=
  ⟨(assertNotRegistered_spec uDel5 uModelEmpty ent5 "some-state").2.2.2.1
      (by decide) (by decide) (by decide),
    (assertNotRegistered_spec uDel5 uModelEmpty ent5 "some-state").2.2.2.2.2.2.2
      (by decide) (by decide) (by decide)⟩

/-! ### Result-state shape lemmas -/

theorem registerNew_state {u u' : UnitOfWork} {e : Entity} {r : Option RegError}
    (h : RegisterNew u e = .ret (u', r)) :
    u' = u ∨ u' = { u with newObjects := mapInsert u.newObjects e.GetID e } := by
  rw [registerNew_eq] at h
  split at h
  · simp only [PanicOr.ret.injEq, Prod.mk.injEq] at h; exact Or.inl h.1.symm
  split at h
  · simp only [PanicOr.ret.injEq, Prod.mk.injEq] at h; exact Or.inl h.1.symm
  split at h
  · simp only [PanicOr.ret.injEq, Prod.mk.injEq] at h; exact Or.inl h.1.symm
  split at h
  · simp only [PanicOr.ret.injEq, Prod.mk.injEq] at h; exact Or.inl h.1.symm
  · simp only [PanicOr.ret.injEq, Prod.mk.injEq] at h; exact Or.inr h.1.symm

theorem registerDirty_state {u u' : UnitOfWork} {e : Entity} {r : Option RegError}
    (h : RegisterDirty u e = .ret (u', r)) :
    u' = u ∨ u' = { u with dirtyObjects := mapInsert u.dirtyObjects e.GetID e } := by
  rw [registerDirty_eq] at h
  split at h
  · simp only [PanicOr.ret.injEq, Prod.mk.injEq] at h; exact Or.inl h.1.symm
  split at h
  · simp only [PanicOr.ret.injEq, Prod.mk.injEq] at h; exact Or.inl h.1.symm
  split at h
  · simp only [PanicOr.ret.injEq, Prod.mk.injEq] at h; exact Or.inl h.1.symm
  · simp only [PanicOr.ret.injEq, Prod.mk.injEq] at h; exact Or.inr h.1.symm

theorem registerDeleted_state {u u' : UnitOfWork} {e : Entity} {r : Option RegError}
    (h : RegisterDeleted u e = .ret (u', r)) :
    u' = u ∨ u' = { u with newObjects := mapErase u.newObjects e.GetID } ∨
      u' = { u with dirtyObjects := mapErase u.dirtyObjects e.GetID } ∨
      u' = { u with dirtyObjects := mapErase u.dirtyObjects e.GetID
                    deletedObjects := mapInsert u.deletedObjects e.GetID e } := by
  rw [registerDeleted_eq] at h
  split at h
  · simp only [PanicOr.ret.injEq, Prod.mk.injEq] at h; exact Or.inl h.1.symm
  split at h
  · simp only [PanicOr.ret.injEq, Prod.mk.injEq] at h
    exact Or.inr (Or.inl h.1.symm)
  split at h
  · simp only [PanicOr.ret.injEq, Prod.mk.injEq] at h
    exact Or.inr (Or.inr (Or.inl h.1.symm))
  · simp only [PanicOr.ret.injEq, Prod.mk.injEq] at h
    exact Or.inr (Or.inr (Or.inr h.1.symm))

/-- C9: frame property: whether a registration call succeeds or fails,
every mapping entry keyed by an identity other than the argument entity's
is left untouched by all three operations. -/
theorem register_frame (u u' : UnitOfWork) (e : Entity) (r : Option RegError)
    (k : String) (hk : k ≠ e.GetID) :
    (RegisterNew u e = .ret (u', r) →
      u'.newObjects k = u.newObjects k ∧
        u'.dirtyObjects k = u.dirtyObjects k ∧
          u'.deletedObjects k = u.deletedObjects k) ∧
    (RegisterDirty u e = .ret (u', r) →
      u'.newObjects k = u.newObjects k ∧
        u'.dirtyObjects k = u.dirtyObjects k ∧
          u'.deletedObjects k = u.deletedObjects k) ∧
    (RegisterDeleted u e = .ret (u', r) →
      u'.newObjects k = u.newObjects k ∧
        u'.dirtyObjects k = u.dirtyObjects k ∧
          u'.deletedObjects k = u.deletedObjects k) := by
  refine ⟨?_, ?_, ?_⟩ <;> intro h
  · rcases registerNew_state h with h' | h' <;> subst h' <;>
      simp [mapInsert, hk]
  · rcases registerDirty_state h with h' | h' <;> subst h' <;>
      simp [mapInsert, hk]
  · rcases registerDeleted_state h with h' | h' | h' | h' <;> subst h' <;>
      simp [mapInsert, mapErase, hk]

/-- Witness for C9: a successful `RegisterNew` of `ent5` does not change
any mapping at the unrelated key `"7"`. -/
theorem register_frame_witness :
    uNew5.newObjects "7" = NewUnitOfWork.newObjects "7" ∧
      uNew5.dirtyObjects "7" = NewUnitOfWork.dirtyObjects "7" ∧
        uNew5.deletedObjects "7" = NewUnitOfWork.deletedObjects "7" :=
  (register_frame NewUnitOfWork uNew5 ent5 none "7" (by decide)).1 rfl

/-- Classifies a registration error by kind: `none` for success,
`some none` for a missing identity, `some (some (id, category))` for a
conflicting-state rejection. -/
def outcomeKind : Option RegError → Option (Option (String × String))
  | none => none
  | some (.missingIdentity _) => some none
  | some (.conflictingState i c) => some (some (i, c))

/-- Registry holding `ent5b` (same identity `"5"`, different reference)
in the new mapping only. -/
def uNew5b : UnitOfWork :=
  { NewUnitOfWork with
      newObjects := mapInsert NewUnitOfWork.newObjects "5" ent5b }

/-- C10 (amended): each operation's control flow depends only on the
entity's identity: two entities with equal identities succeed or fail the
same way (same error kind, and identical `conflictingState` errors), and
the post-states have identical key sets in all three mappings and agree at
every key other than that identity; only the entity rendered inside a
`missingIdentity` error and the reference stored under the one identity
may differ. -/
theorem register_id_determined (e1 e2 : Entity) (u : UnitOfWork)
    (h : e1.GetID = e2.GetID) :
    (∀ u1 r1 u2 r2, RegisterNew u e1 = .ret (u1, r1) →
      RegisterNew u e2 = .ret (u2, r2) →
      outcomeKind r1 = outcomeKind r2 ∧
        (∀ k, (u1.newObjects k).isSome = (u2.newObjects k).isSome ∧
          (u1.dirtyObjects k).isSome = (u2.dirtyObjects k).isSome ∧
            (u1.deletedObjects k).isSome = (u2.deletedObjects k).isSome) ∧
        (∀ k, k ≠ e1.GetID →
          u1.newObjects k = u2.newObjects k ∧
            u1.dirtyObjects k = u2.dirtyObjects k ∧
              u1.deletedObjects k = u2.deletedObjects k)) ∧
    (∀ u1 r1 u2 r2, RegisterDirty u e1 = .ret (u1, r1) →
      RegisterDirty u e2 = .ret (u2, r2) →
      outcomeKind r1 = outcomeKind r2 ∧
        (∀ k, (u1.newObjects k).isSome = (u2.newObjects k).isSome ∧
          (u1.dirtyObjects k).isSome = (u2.dirtyObjects k).isSome ∧
            (u1.deletedObjects k).isSome = (u2.deletedObjects k).isSome) ∧
        (∀ k, k ≠ e1.GetID →
          u1.newObjects k = u2.newObjects k ∧
            u1.dirtyObjects k = u2.dirtyObjects k ∧
              u1.deletedObjects k = u2.deletedObjects k)) ∧
    (∀ u1 r1 u2 r2, RegisterDeleted u e1 = .ret (u1, r1) →
      RegisterDeleted u e2 = .ret (u2, r2) →
      outcomeKind r1 = outcomeKind r2 ∧
        (∀ k, (u1.newObjects k).isSome = (u2.newObjects k).isSome ∧
          (u1.dirtyObjects k).isSome = (u2.dirtyObjects k).isSome ∧
            (u1.deletedObjects k).isSome = (u2.deletedObjects k).isSome) ∧
        (∀ k, k ≠ e1.GetID →
          u1.newObjects k = u2.newObjects k ∧
            u1.dirtyObjects k = u2.dirtyObjects k ∧
              u1.deletedObjects k = u2.deletedObjects k)) := by
  refine ⟨?_, ?_, ?_⟩ <;> intro u1 r1 u2 r2 h1 h2
  · rw [registerNew_eq] at h1 h2
    rw [← h] at h2
    by_cases c0 : e1.GetID = "" <;>
      by_cases c1 : (u.dirtyObjects e1.GetID).isSome <;>
        by_cases c2 : (u.deletedObjects e1.GetID).isSome <;>
          by_cases c3 : (u.newObjects e1.GetID).isSome <;>
            (simp [c0, c1, c2, c3] at h1 h2;
             obtain ⟨rfl, rfl⟩ := h1;
             obtain ⟨rfl, rfl⟩ := h2;
             refine ⟨rfl, fun k => ?_, fun k hk => ?_⟩ <;>
              by_cases hkk : k = e1.GetID <;>
                simp_all [mapInsert, mapErase])
  · rw [registerDirty_eq] at h1 h2
    rw [← h] at h2
    by_cases c0 : e1.GetID = "" <;>
      by_cases c1 : (u.deletedObjects e1.GetID).isSome <;>
        by_cases c2 : (u.newObjects e1.GetID).isSome <;>
          (simp [c0, c1, c2] at h1 h2;
           obtain ⟨rfl, rfl⟩ := h1;
           obtain ⟨rfl, rfl⟩ := h2;
           refine ⟨rfl, fun k => ?_, fun k hk => ?_⟩ <;>
            by_cases hkk : k = e1.GetID <;>
              simp_all [mapInsert, mapErase])
  · rw [registerDeleted_eq] at h1 h2
    rw [← h] at h2
    by_cases c0 : e1.GetID = "" <;>
      by_cases c1 : (u.newObjects e1.GetID).isSome <;>
        by_cases c2 : (u.deletedObjects e1.GetID).isSome <;>
          (simp [c0, c1, c2] at h1 h2;
           obtain ⟨rfl, rfl⟩ := h1;
           obtain ⟨rfl, rfl⟩ := h2;
           refine ⟨rfl, fun k => ?_, fun k hk => ?_⟩ <;>
            by_cases hkk : k = e1.GetID <;>
              simp_all [mapInsert, mapErase])

/-- Witness for the amended C10: registering `ent5` or the
same-identity `ent5b` on the empty registry yields new mappings with the
same key set at `"5"`. -/
theorem register_id_determined_witness :
    (uNew5.newObjects "5").isSome = (uNew5b.newObjects "5").isSome :=
  (((register_id_determined ent5 ent5b NewUnitOfWork rfl).1
      uNew5 none uNew5b none rfl rfl).2.1 "5").1

/-- C10 counterexample: the identity-less `entNoId` and `entNoIdB` share
the same (empty) identity, yet `RegisterNew` returns different error
values for them: each `missingIdentity` error renders its own entity, so
the returned outcomes are not the same. -/
theorem register_id_determined_cex :
    entNoId.GetID = entNoIdB.GetID ∧
      RegisterNew NewUnitOfWork entNoId =
          .ret (NewUnitOfWork, some (.missingIdentity entNoId)) ∧
        RegisterNew NewUnitOfWork entNoIdB =
            .ret (NewUnitOfWork, some (.missingIdentity entNoIdB)) ∧
          decide (RegError.missingIdentity entNoId =
              RegError.missingIdentity entNoIdB) = false :=
  ⟨rfl, rfl, rfl, rfl⟩

end Datamapper
